import Mathlib

/-!
Verification of the abstract-input component of ember-frost-bunsen
(`src/addon/components/inputs/abstract-input.js`): the read/write value
transform engine, the per-field error-display state machine, the raw-event
parsing and the upward change-notification pipeline, shallowly embedded in
Lean 4 over a model of JavaScript values.
-/

namespace AbstractInput

/-- Model of a JavaScript value as it flows through the component: the
`value` prop is declared as one of array/bool/null/number/object/string,
and raw change events may additionally carry `undefined` fields. Numbers
are modelled as integers (no claim depends on floating point). Objects are
association lists of own enumerable properties in insertion order. -/
inductive Value where
  | str : String → Value
  | num : Int → Value
  | bool : Bool → Value
  | null : Value
  | undefined : Value
  | arr : List Value → Value
  | obj : List (String × Value) → Value
deriving Repr

mutual

/-- Deep structural equality on JavaScript values, the model of lodash
`_.isEqual` as the component uses it (`actions.onChange` compares the
write-transformed new value against the committed `value` prop with it). -/
def Value.isEqual : Value → Value → Bool
  | .str a, .str b => a == b
  | .num a, .num b => a == b
  | .bool a, .bool b => a == b
  | .null, .null => true
  | .undefined, .undefined => true
  | .arr a, .arr b => Value.isEqualList a b
  | .obj a, .obj b => Value.isEqualFields a b
  | _, _ => false

/-- Elementwise deep equality of two arrays. -/
def Value.isEqualList : List Value → List Value → Bool
  | [], [] => true
  | x :: xs, y :: ys => Value.isEqual x y && Value.isEqualList xs ys
  | _, _ => false

/-- Fieldwise deep equality of two objects (the model keeps own properties
as an ordered association list). -/
def Value.isEqualFields : List (String × Value) → List (String × Value) → Bool
  | [], [] => true
  | (k, v) :: xs, (l, w) :: ys =>
      k == l && Value.isEqual v w && Value.isEqualFields xs ys
  | _, _ => false

end

/-- String test, the model of lodash `_.isString`. -/
def Value.isString : Value → Bool
  | .str _ => true
  | _ => false

/-- `undefined` test, the model of lodash `_.isUndefined`. -/
def Value.isUndefined : Value → Bool
  | .undefined => true
  | _ => false

/-- Safe property lookup, the model of one step of lodash `_.get`: a missing
key, or a base that is not an object, yields `undefined` (lodash never
throws here). -/
def jsGetField (v : Value) (k : String) : Value :=
  match v with
  | .obj fields => ((fields.find? (fun kv => kv.1 == k)).map Prod.snd).getD .undefined
  | _ => .undefined

/-- Strict property access, the model of JavaScript `v.k`: reading a
property of `null` or `undefined` throws a `TypeError`; on other
primitives it yields `undefined` (the component only reads the keys
`value` and `target`, which no primitive carries as an own property). -/
def jsDotField (v : Value) (k : String) : Except String Value :=
  match v with
  | .null => .error "TypeError: cannot read properties of null"
  | .undefined => .error "TypeError: cannot read properties of undefined"
  | .obj fields => .ok (((fields.find? (fun kv => kv.1 == k)).map Prod.snd).getD .undefined)
  | _ => .ok .undefined

/-- A transform entry of `cellConfig.transforms.read` / `transforms.write`.
Each optional field is `none` exactly when the key is absent from the
JavaScript object, so `'object' in transform` is `object.isSome` and
`transform.global === false` is `global = some false`. -/
structure Transform where
  object : Option (List (String × String)) := none
  from_ : Option String := none
  to_ : Option String := none
  regex : Option Bool := none
  global : Option Bool := none

/-- The template variables `\x7bid, value\x7d` built by
`getTemplateVariables`. -/
structure TemplateVariables where
  id : String
  value : Value

/-- `getTemplateVariables(value)`: packages the component's `bunsenId` with
the value being transformed. -/
def getTemplateVariables (bunsenId : String) (value : Value) : TemplateVariables :=
  { id := bunsenId, value := value }

/-- Split a character list on each leftmost non-overlapping occurrence of
the non-empty separator `sep`; `acc` holds the (reversed) characters of the
current piece and `fuel` bounds the number of steps, each of which consumes
at least one character. -/
def splitOnCharsAux (sep : List Char) : Nat → List Char → List Char → List (List Char)
  | 0, l, acc => [acc.reverse ++ l]
  | _ + 1, [], acc => [acc.reverse]
  | fuel + 1, c :: rest, acc =>
    if sep.isPrefixOf (c :: rest) then
      acc.reverse :: splitOnCharsAux sep fuel ((c :: rest).drop sep.length) []
    else
      splitOnCharsAux sep fuel rest (c :: acc)

/-- Model of JavaScript `String.prototype.split` with a string separator:
the empty separator splits between every character, a non-empty separator
splits on each leftmost non-overlapping occurrence. -/
def jsSplit (s sep : String) : List String :=
  if sep = "" then s.data.map (fun c => String.mk [c])
  else (splitOnCharsAux sep.data (s.data.length + 1) s.data []).map String.mk

/-- Model of `value.replace(new RegExp(pat, 'g'), to)` for a pattern free
of regex metacharacters, i.e. literal matching: every non-overlapping
occurrence of `pat` is replaced left to right; the empty pattern matches
at every position including both ends. -/
def jsReplaceAll (s pat rep : String) : String :=
  if pat = "" then
    String.intercalate rep ([""] ++ s.data.map (fun c => String.mk [c]) ++ [""])
  else
    String.intercalate rep (jsSplit s pat)

/-- Model of `value.replace(new RegExp(pat, ''), to)` for a pattern free of
regex metacharacters: only the first occurrence of `pat` is replaced; the
empty pattern matches at position 0. -/
def jsReplaceFirst (s pat rep : String) : String :=
  if pat = "" then rep ++ s
  else
    match jsSplit s pat with
    | [] => s
    | [_] => s
    | x :: rest => x ++ rep ++ String.intercalate pat rest

/-- `applyStringTransform(value, transform)` from the source: global flag
is on unless `transform.global === false`; a truthy `regex` key selects
regex replacement (modelled here for metacharacter-free patterns), else a
literal `split(from).join(to)` substitution. `from`/`to` default to the
empty string where the source would coerce an absent key. -/
def applyStringTransform (value : String) (t : Transform) : String :=
  let flags : String := if t.global = some false then "" else "g"
  if t.regex.getD false then
    if flags = "g" then jsReplaceAll value (t.from_.getD "") (t.to_.getD "")
    else jsReplaceFirst value (t.from_.getD "") (t.to_.getD "")
  else
    String.intercalate (t.to_.getD "") (jsSplit value (t.from_.getD ""))

/-- `applyObjectTransform(value, transform)` from the source: build a fresh
object whose keys are exactly the keys of `transform.object`, each bound to
the corresponding template string resolved by `parseVariables` (an external
`bunsen-core` helper, passed in here as the parameter `pv`) against the
variables from `getTemplateVariables`. -/
def applyObjectTransform (pv : TemplateVariables → String → String)
    (bunsenId : String) (value : Value) (t : Transform) : Value :=
  let vars := getTemplateVariables bunsenId value
  .obj ((t.object.getD []).map (fun kv => (kv.1, .str (pv vars kv.2))))

/-- True exactly when the control flow of `applyTransform` falls through
both shape tests and reaches the `Logger.warn('Unknown transform:', ...)`
call. -/
def applyTransformWarns (t : Transform) : Bool :=
  !t.object.isSome && !(t.from_.isSome && t.to_.isSome)

/-- `applyTransform(value, transform)` from the source: a transform with an
`object` key is an object transform; else one with both `from` and `to`
keys is a string transform (whose `value.split`/`value.replace` calls throw
a `TypeError` when the value is not a string); any other shape logs a
warning and returns the value unchanged. -/
def applyTransform (pv : TemplateVariables → String → String)
    (bunsenId : String) (value : Value) (t : Transform) : Except String Value :=
  let isObjectTransform := t.object.isSome
  let isStringTransform := t.from_.isSome && t.to_.isSome
  if isObjectTransform then
    .ok (applyObjectTransform pv bunsenId value t)
  else if isStringTransform then
    match value with
    | .str s => .ok (.str (applyStringTransform s t))
    | _ => .error "TypeError: value.split is not a function"
  else
    .ok value

/-- `applyTransforms(value, transforms)` from the source: absent (`none`,
covering JavaScript `undefined`/`null`) or empty transform lists return the
value unchanged; otherwise the list is folded left to right with
`applyTransform`, each step feeding the next. -/
def applyTransforms (pv : TemplateVariables → String → String)
    (bunsenId : String) (value : Value) (transforms : Option (List Transform)) :
    Except String Value :=
  match transforms with
  | none => .ok value
  | some ts =>
    if ts.length = 0 then .ok value
    else ts.foldlM (applyTransform pv bunsenId) value

/-- The computed property `transformedValue`: a non-string model value is
returned untouched; a string value goes through the configured
`transforms.read` pipeline. -/
def transformedValue (pv : TemplateVariables → String → String)
    (bunsenId : String) (value : Value) (readTransforms : Option (List Transform)) :
    Except String Value :=
  if !value.isString then .ok value
  else applyTransforms pv bunsenId value readTransforms

/-- `parseValue(data)` from the source: lodash `_.find` over
`[data.value, _.get(data, 'target.value'), data]` keeps the first defined
entry, `undefined` when all three are undefined. The array is built
eagerly, so the strict access `data.value` throws first when `data` itself
is `null`/`undefined`. -/
def parseValue (data : Value) : Except String Value :=
  match jsDotField data "value" with
  | .error err => .error err
  | .ok first =>
    let second := jsGetField (jsGetField data "target") "value"
    .ok (if !first.isUndefined then first
         else if !second.isUndefined then second
         else if !data.isUndefined then data
         else .undefined)

/-- The computed property `renderErrorMessage`: hidden (null) unless
`showAllErrors` or the per-field `showErrorMessage` flag is set, in which
case the upstream `errorMessage` prop (itself possibly null) is rendered. -/
def renderErrorMessage (errorMessage : Option String)
    (showErrorMessage showAllErrors : Bool) : Option String :=
  if !showAllErrors && !showErrorMessage then none
  else errorMessage

/-- The defaults returned by `getDefaultProps`. -/
structure DefaultProps where
  required : Bool
  showErrorMessage : Bool

/-- `getDefaultProps()`: `required` and the error-display flag
`showErrorMessage` both start false (`errorHidden`). -/
def getDefaultProps : DefaultProps :=
  { required := false, showErrorMessage := false }

/-- The discrete events the component's actions react to: `focusOut`,
`focusIn`, and a raw change event carrying its event object. -/
inductive InputEvent where
  | focusOut : InputEvent
  | focusIn : InputEvent
  | change : Value → InputEvent

/-- The `onFocusOut` action on the `showErrorMessage` flag: set it when it
is not already set. -/
def onFocusOut (showErrorMessage : Bool) : Bool :=
  if !showErrorMessage then true else showErrorMessage

/-- The `onFocusIn` action on the `showErrorMessage` flag: clear it when it
is set. -/
def onFocusIn (showErrorMessage : Bool) : Bool :=
  if showErrorMessage then false else showErrorMessage

/-- The effect of each action on the `showErrorMessage` flag; the
`onChange` action never writes it. -/
def stepShowErrorMessage (showErrorMessage : Bool) : InputEvent → Bool
  | .focusOut => onFocusOut showErrorMessage
  | .focusIn => onFocusIn showErrorMessage
  | .change _ => showErrorMessage

/-- The `actions.onChange` handler: parse the raw event, apply the
configured `transforms.write`, and invoke the upward `onChange(bunsenId,
transformedNewValue)` callback exactly when the transformed value is not
`_.isEqual` to the committed `value` prop. The result records the single
upward call made, `none` when the callback is not invoked. -/
def onChangeAction (pv : TemplateVariables → String → String)
    (bunsenId : String) (writeTransforms : Option (List Transform))
    (oldValue : Value) (e : Value) : Except String (Option (String × Value)) :=
  match parseValue e with
  | .error err => .error err
  | .ok newValue =>
    match applyTransforms pv bunsenId newValue writeTransforms with
    | .error err => .error err
    | .ok transformedNewValue =>
      if !(Value.isEqual transformedNewValue oldValue) then
        .ok (some (bunsenId, transformedNewValue))
      else
        .ok none

/-- C2: for every value `v`, `applyTransforms(v, ts)` returns `v` unchanged
when `ts` is absent (undefined/null) or the empty sequence; otherwise it
returns the left-to-right fold of `applyTransform` over `ts` starting from
`v`, each step's output feeding the next step's input. -/
theorem applyTransforms_fold (pv : TemplateVariables → String → String)
    (bunsenId : String) (v : Value) :
    applyTransforms pv bunsenId v none = .ok v ∧
    applyTransforms pv bunsenId v (some []) = .ok v ∧
    ∀ ts : List Transform,
      applyTransforms pv bunsenId v (some ts) =
        ts.foldlM (applyTransform pv bunsenId) v := by
  refine ⟨rfl, rfl, fun ts => ?_⟩
  cases ts with
  | nil => rfl
  | cons t rest => rfl

/-- C3: the read-transform pipeline is applied to the model value only when
that value is a string; every non-string value passes through
`transformedValue` unchanged regardless of the configured read
transforms. -/
theorem transformedValue_skips_nonstring (pv : TemplateVariables → String → String)
    (bunsenId : String) (v : Value) (readTransforms : Option (List Transform))
    (h : v.isString = false) :
    transformedValue pv bunsenId v readTransforms = .ok v := by
  simp [transformedValue, h]

/-- Witness for C3 at `value = 42` with a read transform configured. -/
theorem transformedValue_skips_nonstring_witness :
    (Value.num 42).isString = false ∧
    transformedValue (fun _ t => t) "foo" (Value.num 42)
      (some [{ from_ := some "4", to_ := some "9" }]) = .ok (Value.num 42) :=
  ⟨rfl, transformedValue_skips_nonstring _ _ _ _ rfl⟩

/-- C5: a transform that is neither an object transform (no `object` key)
nor a string transform (not both `from` and `to` present) is returned
unchanged by `applyTransform` — a recoverable no-op, never a failure — and
the `Logger.warn` call is reached. -/
theorem applyTransform_unknown_shape (pv : TemplateVariables → String → String)
    (bunsenId : String) (v : Value) (t : Transform)
    (hobj : t.object = none)
    (hstr : (t.from_.isSome && t.to_.isSome) = false) :
    applyTransform pv bunsenId v t = .ok v ∧ applyTransformWarns t = true := by
  constructor
  · simp [applyTransform, hobj, hstr]
  · simp [applyTransformWarns, hobj, hstr]

/-- Witness for C5 on a transform carrying only a `regex` key. -/
theorem applyTransform_unknown_shape_witness :
    ({ regex := some true } : Transform).object = none ∧
    (({ regex := some true } : Transform).from_.isSome &&
      ({ regex := some true } : Transform).to_.isSome) = false ∧
    applyTransform (fun _ t => t) "foo" (.str "abc") { regex := some true } =
      .ok (.str "abc") ∧
    applyTransformWarns { regex := some true } = true :=
  ⟨rfl, rfl,
    (applyTransform_unknown_shape (fun _ t => t) "foo" (.str "abc")
      { regex := some true } rfl rfl).1,
    (applyTransform_unknown_shape (fun _ t => t) "bar" (.str "abc")
      { regex := some true } rfl rfl).2⟩

/-- C4: for every regex string transform, the constructed pattern is global
(replaces all matches) unless `transform.global === false` exactly, in
which case only the first match is replaced; any other value of
`transform.global`, including absent, enables global replacement. -/
theorem applyStringTransform_global_flag (s : String) (t : Transform)
    (hregex : t.regex = some true) :
    (t.global ≠ some false →
      applyStringTransform s t = jsReplaceAll s (t.from_.getD "") (t.to_.getD "")) ∧
    (t.global = some false →
      applyStringTransform s t = jsReplaceFirst s (t.from_.getD "") (t.to_.getD "")) := by
  constructor <;> intro hg <;> simp [applyStringTransform, hregex, hg]

/-- Witness for C4: with three matches, an absent `global` key replaces all
of them and `global: false` replaces only the first. -/
theorem applyStringTransform_global_flag_witness :
    ({ from_ := some "a", to_ := some "b", regex := some true } : Transform).regex
        = some true ∧
    applyStringTransform "a-a-a"
      { from_ := some "a", to_ := some "b", regex := some true } = "b-b-b" ∧
    applyStringTransform "a-a-a"
      { from_ := some "a", to_ := some "b", regex := some true,
        global := some false } = "b-a-a" :=
  ⟨rfl,
    ((applyStringTransform_global_flag "a-a-a"
      { from_ := some "a", to_ := some "b", regex := some true } rfl).1
      (by simp)).trans rfl,
    ((applyStringTransform_global_flag "a-a-a"
      { from_ := some "a", to_ := some "b", regex := some true,
        global := some false } rfl).2 rfl).trans rfl⟩

/-- C6: for every string `v` and string transform `t` with `t.regex` falsy,
`applyTransform(v, t)` is the literal split of `v` on `t.from` joined with
`t.to`: every occurrence of `t.from` is replaced by `t.to` across the whole
string. -/
theorem applyTransform_literal_split_join (pv : TemplateVariables → String → String)
    (bunsenId : String) (s fr tn : String) (t : Transform)
    (hobj : t.object = none) (hfrom : t.from_ = some fr) (hto : t.to_ = some tn)
    (hregex : t.regex.getD false = false) :
    applyTransform pv bunsenId (.str s) t =
      .ok (.str (String.intercalate tn (jsSplit s fr))) := by
  simp [applyTransform, applyStringTransform, hobj, hfrom, hto, hregex]

/-- Witness for C6: replacing every `"a"` of `"banana"` by `"b"`. -/
theorem applyTransform_literal_split_join_witness :
    ({ from_ := some "a", to_ := some "b" } : Transform).regex.getD false = false ∧
    applyTransform (fun _ t => t) "foo" (.str "banana")
      { from_ := some "a", to_ := some "b" } = .ok (.str "bbnbnb") :=
  ⟨rfl,
    (applyTransform_literal_split_join (fun _ t => t) "foo" "banana" "a" "b"
      { from_ := some "a", to_ := some "b" } rfl rfl rfl rfl).trans rfl⟩

/-- C1: the `actions.onChange` handler invokes the upward
`onChange(bunsenId, value)` callback — at most once, as the single
recorded call — exactly when the write-transformed parsed value is not
deep-equal (`_.isEqual`) to the committed value, and the call carries the
transformed value. -/
theorem onChangeAction_fires_iff_changed (pv : TemplateVariables → String → String)
    (bunsenId : String) (writeTransforms : Option (List Transform))
    (oldValue e newValue tv : Value)
    (hp : parseValue e = .ok newValue)
    (ht : applyTransforms pv bunsenId newValue writeTransforms = .ok tv) :
    onChangeAction pv bunsenId writeTransforms oldValue e =
      .ok (if Value.isEqual tv oldValue then none else some (bunsenId, tv)) := by
  simp only [onChangeAction, hp, ht]
  cases h : Value.isEqual tv oldValue <;> simp [h]

/-- Witness for C1: a write transform mapping `"abc"` back to the committed
`"abc"` produces no upward notification. -/
theorem onChangeAction_fires_iff_changed_witness :
    parseValue (.obj [("value", .str "abc")]) = .ok (.str "abc") ∧
    applyTransforms (fun _ t => t) "foo" (.str "abc")
      (some [{ from_ := some "abc", to_ := some "abc" }]) = .ok (.str "abc") ∧
    onChangeAction (fun _ t => t) "foo"
      (some [{ from_ := some "abc", to_ := some "abc" }]) (.str "abc")
      (.obj [("value", .str "abc")]) = .ok none :=
  ⟨rfl, rfl,
    (onChangeAction_fires_iff_changed (fun _ t => t) "foo"
      (some [{ from_ := some "abc", to_ := some "abc" }]) (.str "abc")
      (.obj [("value", .str "abc")]) (.str "abc") (.str "abc") rfl rfl).trans
      (by simp [Value.isEqual])⟩

/-- C7: `renderErrorMessage` is hidden (`none`) whenever neither
`showAllErrors` nor the per-field `showErrorMessage` flag holds, regardless
of the upstream `errorMessage`; it can be non-null only when one of them
holds; and `showAllErrors` forces the upstream message through regardless
of the focus-driven flag. -/
theorem renderErrorMessage_visibility (errorMessage : Option String)
    (showErrorMessage showAllErrors : Bool) :
    renderErrorMessage errorMessage false false = none ∧
    (renderErrorMessage errorMessage showErrorMessage showAllErrors).isSome =
      ((showAllErrors || showErrorMessage) && errorMessage.isSome) ∧
    renderErrorMessage errorMessage showErrorMessage true = errorMessage := by
  refine ⟨rfl, ?_, ?_⟩ <;>
    cases showAllErrors <;> cases showErrorMessage <;> simp [renderErrorMessage]

/-- C8: the per-field error-display flag starts at `errorHidden` (false),
moves to `errorShown` on focus-out, back to `errorHidden` on focus-in, is
untouched by change events, and is always one of exactly those two
states. -/
theorem showErrorMessage_state_machine (b : Bool) (e : InputEvent) :
    getDefaultProps.showErrorMessage = false ∧
    stepShowErrorMessage false .focusOut = true ∧
    stepShowErrorMessage true .focusOut = true ∧
    stepShowErrorMessage true .focusIn = false ∧
    stepShowErrorMessage false .focusIn = false ∧
    (∀ v, stepShowErrorMessage b (.change v) = b) ∧
    (stepShowErrorMessage b e = true ∨ stepShowErrorMessage b e = false) := by
  refine ⟨rfl, rfl, rfl, rfl, rfl, fun v => rfl, ?_⟩
  cases h : stepShowErrorMessage b e
  · exact Or.inr rfl
  · exact Or.inl rfl

/-- C9: `parseValue` returns the first defined candidate in the order
`e.value`, then `e.target.value`, then `e` itself; a later candidate is
chosen only when every earlier one is undefined. -/
theorem parseValue_first_defined (data first : Value)
    (hd : jsDotField data "value" = .ok first) :
    (first.isUndefined = false → parseValue data = .ok first) ∧
    (first.isUndefined = true →
      (jsGetField (jsGetField data "target") "value").isUndefined = false →
      parseValue data = .ok (jsGetField (jsGetField data "target") "value")) ∧
    (first.isUndefined = true →
      (jsGetField (jsGetField data "target") "value").isUndefined = true →
      parseValue data = .ok data) := by
  have hdata : data.isUndefined = false := by
    cases data <;> first | rfl | cases hd
  refine ⟨fun h1 => ?_, fun h1 h2 => ?_, fun h1 h2 => ?_⟩
  · rw [parseValue, hd]
    simp [h1]
  · rw [parseValue, hd]
    simp [h1, h2]
  · rw [parseValue, hd]
    simp [h1, h2, hdata]

/-- Witness for C9: an event with no `value` key but a defined
`target.value` falls through to the second candidate. -/
theorem parseValue_first_defined_witness :
    jsDotField (Value.obj [("target", .obj [("value", .num 5)])]) "value" =
      .ok .undefined ∧
    parseValue (Value.obj [("target", .obj [("value", .num 5)])]) =
      .ok (.num 5) :=
  ⟨rfl,
    (parseValue_first_defined
      (Value.obj [("target", .obj [("value", .num 5)])]) .undefined rfl).2.1 rfl rfl⟩

/-- C10: `applyObjectTransform` builds a fresh object whose key list is
exactly the key list of `transform.object` — no own property of the input
value leaks in — and each entry is that key's template string resolved by
`parseVariables` against the variables from `getTemplateVariables`. -/
theorem applyObjectTransform_fresh_object (pv : TemplateVariables → String → String)
    (bunsenId : String) (v : Value) (t : Transform)
    (fields : List (String × String)) (hobj : t.object = some fields) :
    applyObjectTransform pv bunsenId v t =
      .obj (fields.map (fun kv =>
        (kv.1, Value.str (pv (getTemplateVariables bunsenId v) kv.2)))) ∧
    (fields.map (fun kv =>
        (kv.1, Value.str (pv (getTemplateVariables bunsenId v) kv.2)))).map
      Prod.fst = fields.map Prod.fst := by
  constructor
  · simp [applyObjectTransform, hobj]
  · simp

/-- Witness for C10: the input object's own property `secret` does not
survive the transform; the single output key is the template key. -/
theorem applyObjectTransform_fresh_object_witness :
    ({ object := some [("a", "T")] } : Transform).object = some [("a", "T")] ∧
    applyObjectTransform (fun vars tmpl => vars.id ++ tmpl) "foo"
      (.obj [("secret", .num 1)]) { object := some [("a", "T")] } =
      .obj [("a", .str "fooT")] :=
  ⟨rfl,
    ((applyObjectTransform_fresh_object (fun vars tmpl => vars.id ++ tmpl) "foo"
      (.obj [("secret", .num 1)]) { object := some [("a", "T")] }
      [("a", "T")] rfl).1).trans rfl⟩

end AbstractInput
